import Mathlib

/-!
Verification of the hardware-device management core (`fftools/ffmpeg_hw.c`).

The C file is shallowly embedded: the process-wide registry
(`hw_devices` / `nb_hw_devices`) becomes an explicit `List HWDevice` value
threaded through the functions, external libav collaborators
(`av_hwdevice_ctx_create`, `av_dict_parse_string`, allocation, the codec
hardware-config table, the decoder) become record fields of environment
structures holding their scripted results, and each C function becomes a
Lean function over those.  C strings become `List Char` (for the parser)
or `String` (for registry names).
-/

set_option maxRecDepth 10000

namespace FfmpegHw

/-- Device types: `AVHWDeviceType` values other than `AV_HWDEVICE_TYPE_NONE` are modelled
as plain numeric tags; `AV_HWDEVICE_TYPE_NONE` (the failure result of
`av_hwdevice_find_type_by_name`) is modelled as `Option.none` at the
lookup site. -/
abbrev HWType := Nat

/-- One registry entry (struct `HWDevice` in `ffmpeg.h`): a unique name,
a device type, and `device_ref`, an opaque handle to the underlying
hardware context (modelled as a numeric id of the ref-counted buffer). -/
structure HWDevice where
  name : String
  type : HWType
  device_ref : Nat
deriving Repr, DecidableEq

/-- The device registry: the C globals `hw_devices` (array) and
`nb_hw_devices` (count) as one list, entry `i` of the list being
`hw_devices[i]` for `i < nb_hw_devices`. -/
abbrev Registry := List HWDevice

/-- Error values returned by the embedded functions, matching the C error
codes: `einval` is `AVERROR(EINVAL)` from the `invalid:` label together
with the `errmsg` it logs, `enomem` is `AVERROR(ENOMEM)`, `enosys` is
`AVERROR(ENOSYS)`, and `runtime c` is a negative status `c` propagated
from an external libav call (`fail:` label). -/
inductive HWErr where
  | einval (errmsg : String)
  | enomem
  | enosys
  | runtime (code : Int)
deriving Repr, DecidableEq

/-- Embedding of `hw_device_get_by_name`: linear scan of the registry, first entry whose
name matches (C: `!strcmp(hw_devices[i]->name, name)`), else NULL. -/
def hw_device_get_by_name (st : Registry) (name : String) : Option HWDevice :=
  st.find? (fun d => d.name == name)

/-- The loop body of `hw_device_get_by_type`, with the `found` accumulator:
on a second match the C returns NULL immediately; otherwise the single
match (or NULL) is returned once the scan ends. -/
def getByTypeLoop (type : HWType) : Registry → Option HWDevice → Option HWDevice
  | [], found => found
  | d :: rest, found =>
    if d.type == type then
      match found with
      | some _ => none
      | none => getByTypeLoop type rest (some d)
    else getByTypeLoop type rest found

/-- Embedding of `hw_device_get_by_type`: returns the unique registry entry of the given
type, or NULL when there are zero or at least two such entries. -/
def hw_device_get_by_type (st : Registry) (type : HWType) : Option HWDevice :=
  getByTypeLoop type st none

/-- Number of registry entries of a given type (used to state claims about
`hw_device_get_by_type`). -/
def countType (st : Registry) (type : HWType) : Nat :=
  st.countP (fun d => d.type == type)

/-- Embedding of C `strcspn`: length of the longest initial segment of `s`
containing no character of `reject`. -/
def strcspn (s : List Char) (reject : List Char) : Nat :=
  match s with
  | [] => 0
  | c :: rest => if c ∈ reject then 0 else strcspn rest reject + 1

/-- Embedding of C `strchr` as the parser uses it: index of the first
occurrence of `c` in `s`, or NULL when absent. -/
def strchr (s : List Char) (c : Char) : Option Nat :=
  match s with
  | [] => none
  | x :: xs => if x = c then some 0 else (strchr xs c).map (· + 1)

/-- Embedding of `hw_device_add`, fused with the field assignments its
caller performs on the returned zeroed slot (`dev->name = name;` etc.),
so on success the fully initialized entry `dev` occupies the new final
slot.  `realloc_ok` and `malloc_ok` script the two allocations: when
`av_reallocp_array` fails the C sets `nb_hw_devices = 0`, resetting the
registry to empty; when the element allocation fails the count is
untouched, leaving the registry unchanged. -/
def hw_device_add (st : Registry) (realloc_ok malloc_ok : Bool)
    (dev : HWDevice) : Registry × Bool :=
  if realloc_ok = false then ([], false)
  else if malloc_ok = false then (st, false)
  else (st ++ [dev], true)

/-- The `for (index = 0; index < index_limit; index++)` loop of
`hw_device_default_name`: tries `type_name ++ toString index` for
`fuel` successive indices starting at `index`, returning the first name
not yet registered, or NULL once the indices are exhausted
(`index >= index_limit`). -/
def defaultNameLoop (st : Registry) (type_name : String) :
    Nat → Nat → Option String
  | _, 0 => none
  | index, fuel + 1 =>
    if (hw_device_get_by_name st (type_name ++ toString index)).isNone then
      some (type_name ++ toString index)
    else defaultNameLoop st type_name (index + 1) fuel

/-- Embedding of `hw_device_default_name`: `type_name` is the result of
`av_hwdevice_get_type_name(type)` (supplied by the environment),
`malloc_ok` scripts the `av_malloc` of the name buffer, and the index
limit is 1000. -/
def hw_device_default_name (st : Registry) (type_name : String)
    (malloc_ok : Bool) : Option String :=
  if malloc_ok = false then none
  else defaultNameLoop st type_name 0 1000

/-- Scripted results of the external collaborators
`hw_device_init_from_string` calls, plus success flags for each of its
allocations: `av_hwdevice_find_type_by_name` (`none` standing for
`AV_HWDEVICE_TYPE_NONE`), `av_hwdevice_get_type_name`,
`av_hwdevice_ctx_create` (type, device path or NULL, parsed options),
`av_hwdevice_ctx_create_derived` (type, source `device_ref`),
`av_dict_parse_string`, the three `av_strndup` calls, the name-buffer
`av_malloc` inside `hw_device_default_name`, and the two allocations
inside `hw_device_add`.  Error codes carried by `Except.error` are the
negative statuses the libav calls return. -/
structure InitEnv where
  find_type_by_name : String → Option HWType
  type_name_of : HWType → String
  ctx_create : HWType → Option String → List (String × String) → Except Int Nat
  ctx_create_derived : HWType → Nat → Except Int Nat
  dict_parse : String → Except Int (List (String × String))
  strndup_type_ok : Bool
  strndup_name_ok : Bool
  strndup_device_ok : Bool
  name_malloc_ok : Bool
  add_realloc_ok : Bool
  add_malloc_ok : Bool

/-- The name-selection block of `hw_device_init_from_string` (the
`if (*p == '=') ... else ...` statement): an explicit name runs up to
the next `:@,` and must not already be registered; otherwise a default
name is generated.  Returns the name and the input remaining after it. -/
def initNameStep (env : InitEnv) (st : Registry) (type : HWType)
    (p : List Char) : Except HWErr (String × List Char) :=
  match p with
  | '=' :: p1 =>
    let k := strcspn p1 [':', '@', ',']
    if env.strndup_name_ok = false then .error .enomem
    else
      let name := (p1.take k).asString
      if (hw_device_get_by_name st name).isSome then
        .error (.einval "named device already exists")
      else .ok (name, p1.drop k)
  | _ =>
    match hw_device_default_name st (env.type_name_of type)
        env.name_malloc_ok with
    | none => .error .enomem
    | some name => .ok (name, p)

/-- The creation dispatch of `hw_device_init_from_string` on the character
following the type/name prefix: end of string (create with no
path/options), `:` (path up to an optional comma, then options), `@`
(derive from a registered source device), `,` (options only), anything
else a parse error.  Returns the created context handle. -/
def initBodyStep (env : InitEnv) (st : Registry) (type : HWType)
    (p : List Char) : Except HWErr Nat :=
  match p with
  | [] =>
    match env.ctx_create type none [] with
    | .error code => .error (.runtime code)
    | .ok ref => .ok ref
  | ':' :: p1 =>
    match strchr p1 ',' with
    | some q =>
      if q > 0 ∧ env.strndup_device_ok = false then .error .enomem
      else
        let device : Option String :=
          if q > 0 then some ((p1.take q).asString) else none
        match env.dict_parse ((p1.drop (q + 1)).asString) with
        | .error _ => .error (.einval "failed to parse options")
        | .ok options =>
          match env.ctx_create type device options with
          | .error code => .error (.runtime code)
          | .ok ref => .ok ref
    | none =>
      let device : Option String :=
        if p1 = [] then none else some p1.asString
      match env.ctx_create type device [] with
      | .error code => .error (.runtime code)
      | .ok ref => .ok ref
  | '@' :: p1 =>
    match hw_device_get_by_name st p1.asString with
    | none => .error (.einval "invalid source device name")
    | some src =>
      match env.ctx_create_derived type src.device_ref with
      | .error code => .error (.runtime code)
      | .ok ref => .ok ref
  | ',' :: p1 =>
    match env.dict_parse p1.asString with
    | .error _ => .error (.einval "failed to parse options")
    | .ok options =>
      match env.ctx_create type none options with
      | .error code => .error (.runtime code)
      | .ok ref => .ok ref
  | _ => .error (.einval "parse error")

/-- Embedding of `hw_device_init_from_string`: splits off the type name up
to the first `:=@`, resolves it, selects a name, creates the context
through the environment's collaborators, and registers the result.
Returns the C result paired with the registry the call leaves behind. -/
def hw_device_init_from_string (env : InitEnv) (st : Registry)
    (arg : List Char) : Except HWErr HWDevice × Registry :=
  let k := strcspn arg [':', '=', '@']
  let p := arg.drop k
  if env.strndup_type_ok = false then (.error .enomem, st)
  else
    match env.find_type_by_name (arg.take k).asString with
    | none => (.error (.einval "unknown device type"), st)
    | some type =>
      match initNameStep env st type p with
      | .error e => (.error e, st)
      | .ok (name, p2) =>
        match initBodyStep env st type p2 with
        | .error e => (.error e, st)
        | .ok device_ref =>
          match hw_device_add st env.add_realloc_ok env.add_malloc_ok
              ⟨name, type, device_ref⟩ with
          | (st2, true) => (.ok ⟨name, type, device_ref⟩, st2)
          | (st2, false) => (.error .enomem, st2)

/-- One entry of a codec's ordered hardware-config table
(`AVCodecHWConfig`, read through `avcodec_get_hw_config(codec, i)`):
a pixel format, a method bitmask, and a device type. -/
structure AVCodecHWConfig where
  pix_fmt : Nat
  methods : Nat
  device_type : HWType
deriving Repr, DecidableEq

/-- Bit 0x01 of the method bitmask: the codec binds through a device
context. -/
def AV_CODEC_HW_CONFIG_METHOD_HW_DEVICE_CTX : Nat := 1

/-- Bit 0x02 of the method bitmask: the codec binds through a frames
context. -/
def AV_CODEC_HW_CONFIG_METHOD_HW_FRAMES_CTX : Nat := 2

/-- Value `HWACCEL_NONE` of the `HWAccelID` enum in `ffmpeg.h` (first
enumerator, hence 0): no hardware-accel request on the stream. -/
def HWACCEL_NONE : Nat := 0

/-- Fields of `InputStream` that `hw_device_setup_for_decode` consults,
with the scripted statuses of its two tail collaborators:
`avcodec_set_hw_device_ctx` and the `av_buffer_ref` retained on the
stream. -/
structure InputStreamM where
  hwaccel_id : Nat
  hwaccel_device_type : HWType
  codec_hw_configs : List AVCodecHWConfig
  set_hw_device_ctx_res : Int
  buffer_ref_ok : Bool

/-- The scanning loop of `hw_device_setup_for_decode`: an exhausted table
returns ENOSYS ("Decoder does not support any device type"); entries
without the device-context method are skipped; an entry whose type
equals the requested type breaks with the registered device when
`hw_device_get_by_type` finds one, otherwise scanning continues.  The
loop can only exit with ENOSYS or with a device in hand, so `.ok none`
(the C `dev == NULL` after the loop) is never produced. -/
def decodeConfigLoop (st : Registry) (requested : HWType) :
    List AVCodecHWConfig → Except HWErr (Option HWDevice)
  | [] => .error .enosys
  | config :: rest =>
    if config.methods &&& AV_CODEC_HW_CONFIG_METHOD_HW_DEVICE_CTX == 0 then
      decodeConfigLoop st requested rest
    else if config.device_type == requested then
      match hw_device_get_by_type st config.device_type with
      | some dev => .ok (some dev)
      | none => decodeConfigLoop st requested rest
    else decodeConfigLoop st requested rest

/-- Embedding of `hw_device_setup_for_decode`, including the post-loop
`if (!dev)` check that produces EINVAL ("No suitable hwaccel device
found"). -/
def hw_device_setup_for_decode (st : Registry) (ist : InputStreamM) :
    Except HWErr Unit :=
  if ist.hwaccel_id == HWACCEL_NONE then .ok ()
  else
    match decodeConfigLoop st ist.hwaccel_device_type ist.codec_hw_configs with
    | .error e => .error e
    | .ok none => .error (.einval "No suitable hwaccel device found")
    | .ok (some _) =>
      if ist.set_hw_device_ctx_res < 0 then
        .error (.runtime ist.set_hw_device_ctx_res)
      else if ist.buffer_ref_ok = false then .error .enomem
      else .ok ()

/-- Embedding of `hw_device_match_by_codec`: first table entry carrying the
device-context method whose type has a uniquely registered device. -/
def hw_device_match_by_codec (st : Registry) :
    List AVCodecHWConfig → Option HWDevice
  | [] => none
  | config :: rest =>
    if config.methods &&& AV_CODEC_HW_CONFIG_METHOD_HW_DEVICE_CTX == 0 then
      hw_device_match_by_codec st rest
    else
      match hw_device_get_by_type st config.device_type with
      | some dev => some dev
      | none => hw_device_match_by_codec st rest

/-- Fields of `OutputStream` and its encoder that
`hw_device_setup_for_encode` consults: the codec's hardware-config
table and the scripted collaborators
`avcodec_get_hw_frames_parameters` (device handle and pixel format to a
negotiated frame pool, or a negative status) and
`avcodec_set_hw_frames_ctx` (pool to status). -/
structure OutputStreamM where
  codec_hw_configs : List AVCodecHWConfig
  get_hw_frames_parameters : Nat → Nat → Except Int Nat
  set_hw_frames_ctx_res : Nat → Int

/-- Embedding of `set_hwframe_ctx`: the first table entry carrying the
frames-context method and the chosen device's type triggers one
frame-pool negotiation, whose result (NULL on negotiation failure, as
when no entry matches) becomes `ost->hw_frames_ctx`. -/
def set_hwframe_ctx (ost : OutputStreamM) (dev : HWDevice) :
    List AVCodecHWConfig → Option Nat
  | [] => none
  | config :: rest =>
    if config.methods &&& AV_CODEC_HW_CONFIG_METHOD_HW_FRAMES_CTX == 0 then
      set_hwframe_ctx ost dev rest
    else if config.device_type != dev.type then
      set_hwframe_ctx ost dev rest
    else
      match ost.get_hw_frames_parameters dev.device_ref config.pix_fmt with
      | .error _ => none
      | .ok pool => some pool

/-- Embedding of `hw_device_setup_for_encode`; the second component is the
final `ost->hw_frames_ctx` (NULL initially, released again when binding
it to the encoder fails). -/
def hw_device_setup_for_encode (st : Registry) (ost : OutputStreamM) :
    Except Int Unit × Option Nat :=
  match hw_device_match_by_codec st ost.codec_hw_configs with
  | none => (.ok (), none)
  | some dev =>
    match set_hwframe_ctx ost dev ost.codec_hw_configs with
    | none => (.ok (), none)
    | some pool =>
      if ost.set_hw_frames_ctx_res pool < 0 then
        (.error (ost.set_hw_frames_ctx_res pool), none)
      else (.ok (), some pool)

/-- One node of the filter graph: the declared name of its filter class
(`filter->filter->name`), the scripted status `av_opt_set(filter,
"device", value, 0)` would return on it, and its `device` option,
updated when that call succeeds (NULL initially). -/
structure FilterNode where
  fname : String
  opt_set_res : Int
  device : Option String := none
deriving Repr, DecidableEq

/-- Filter-graph fields consulted by `hw_device_setup_for_filter`: the
sink's input count, the media type of its first input, and the graph's
filter nodes in graph order. -/
structure FilterGraphM where
  sink_nb_inputs : Nat
  sink_input_type : Nat
  filters : List FilterNode

/-- Scripted collaborator for `hw_device_setup_for_filter`:
`avcodec_find_decoder` resolves a media type to a decoder (identified
by its hardware-config table) or NULL. -/
structure FilterEnv where
  find_decoder : Nat → Option (List AVCodecHWConfig)

/-- The option-propagation loop of `hw_device_setup_for_filter`: every
node whose filter name is "hwupload" has its `device` option set to the
selected device's name; a failing `av_opt_set` status is returned at
once, leaving that node and every later one untouched. -/
def hwuploadSetLoop (devname : String) :
    List FilterNode → Except Int Unit × List FilterNode
  | [] => (.ok (), [])
  | f :: rest =>
    if f.fname == "hwupload" then
      if f.opt_set_res < 0 then (.error f.opt_set_res, f :: rest)
      else
        ((hwuploadSetLoop devname rest).1,
         { f with device := some devname } :: (hwuploadSetLoop devname rest).2)
    else
      ((hwuploadSetLoop devname rest).1,
       f :: (hwuploadSetLoop devname rest).2)

/-- Embedding of `hw_device_setup_for_filter`; the second component is the
final state of the graph's filter nodes. -/
def hw_device_setup_for_filter (st : Registry) (env : FilterEnv)
    (fg : FilterGraphM) : Except Int Unit × List FilterNode :=
  if fg.sink_nb_inputs == 0 then (.ok (), fg.filters)
  else
    match env.find_decoder fg.sink_input_type with
    | none => (.ok (), fg.filters)
    | some codec_configs =>
      match hw_device_match_by_codec st codec_configs with
      | none => (.ok (), fg.filters)
      | some dev => hwuploadSetLoop dev.name fg.filters

/-- Decoded audio frame: the `AVFrame` fields `remix_audio` touches.
`data` is the channel planes' byte contents, `channel_layout`,
`sample_rate`, `format` and `nb_samples` the copied format metadata,
and `pts` stands for the stream-level properties that
`av_frame_copy_props` transfers. -/
structure AVFrame where
  data : List (List Int)
  channel_layout : Nat
  sample_rate : Int
  format : Nat
  nb_samples : Nat
  pts : Int
deriving Repr, DecidableEq

/-- Collaborator behaviour for `remix_audio`: success flags for
`av_frame_alloc` and `av_frame_get_buffer`, and the libavutil layout
rules `av_frame_get_buffer` applies to a planar audio frame —
`nb_channels layout` planes, each of `plane_size format nb_samples`
bytes (the frame's `linesize[0]`), filled with the allocator's `fresh`
byte (the model of freshly allocated, unwritten memory). -/
structure FrameEnv where
  frame_alloc_ok : Bool
  get_buffer_ok : Bool
  nb_channels : Nat → Nat
  plane_size : Nat → Nat → Nat
  fresh : Int

/-- C `memcpy(dst, src, n)` over byte lists: the first `n` bytes of `dst`
are replaced by the first `n` bytes of `src`. -/
def memcpyBytes (dst src : List Int) (n : Nat) : List Int :=
  src.take n ++ dst.drop n

/-- The `for (i = 0; i < remix_size; ++i)` copy loop of `remix_audio`:
output plane `i` receives `linesize` bytes of input plane
`remix_map[i]`; planes at index `remix_size` and beyond keep their
freshly allocated contents. -/
def remixCopyLoop (srcData : List (List Int)) (remix_map : List Nat)
    (linesize remix_size : Nat) : Nat → List (List Int) → List (List Int)
  | _, [] => []
  | i, d :: ds =>
    if i < remix_size then
      memcpyBytes d (srcData.getD (remix_map.getD i 0) []) linesize ::
        remixCopyLoop srcData remix_map linesize remix_size (i + 1) ds
    else d :: remixCopyLoop srcData remix_map linesize remix_size (i + 1) ds

/-- Embedding of `remix_audio`: allocates the remix frame carrying the
input's channel layout, sample rate, format and sample count, allocates
its plane buffers, copies the mapped planes, copies the frame
properties, and moves the new frame into the caller's handle — the
returned frame is what that handle holds afterwards. -/
def remix_audio (env : FrameEnv) (frame : AVFrame) (remix_map : List Nat)
    (remix_size : Nat) : Except HWErr AVFrame :=
  if env.frame_alloc_ok = false then .error .enomem
  else if env.get_buffer_ok = false then .error .enomem
  else
    let linesize := env.plane_size frame.format frame.nb_samples
    let base := List.replicate (env.nb_channels frame.channel_layout)
      (List.replicate linesize env.fresh)
    .ok { data := remixCopyLoop frame.data remix_map linesize remix_size 0 base
          channel_layout := frame.channel_layout
          sample_rate := frame.sample_rate
          format := frame.format
          nb_samples := frame.nb_samples
          pts := frame.pts }

/-- POSIX `AVERROR(EAGAIN)` as used on Linux: negated errno 11. -/
def AVERROR_EAGAIN : Int := -11

/-- Constant `AVERROR_EOF` (the FFERRTAG of "EOF "). -/
def AVERROR_EOF : Int := -541478725

/-- One compressed packet read by `av_read_frame`: an identity for the
resource ledger and the stream it belongs to. -/
structure Packet where
  pid : Nat
  stream_index : Int
deriving Repr, DecidableEq

/-- Resource and call ledger of one `apply_audio_remix` run: packet reads
(`read pid` on success, `read_fail` for the demuxer status that ends
the loop), packet sends with their status, frame receives recording
whether the frame-handle argument was NULL together with the receive
status, remix steps with their status, `av_packet_unref` calls, and the
final `av_frame_free`. -/
inductive RemixEvent where
  | read (pid : Nat)
  | read_fail (code : Int)
  | send (pid : Nat) (res : Int)
  | recv (frame_is_null : Bool) (res : Int)
  | remix (res : Int)
  | unref (pid : Nat)
  | frame_free
deriving Repr, DecidableEq

/-- Scripted demuxer/decoder behaviour driving `apply_audio_remix`: the
successive packets `av_read_frame` produces and the status it returns
once they are exhausted, the tracked stream's index (`ist->st->index`),
the `avcodec_send_packet` status per packet, the
`avcodec_receive_frame` statuses per packet (consumed in order), and
the remix status per packet and received frame. -/
structure RemixScript where
  packets : List Packet
  read_end : Int
  stream_index : Int
  send_res : Nat → Int
  recv_script : Nat → List Int
  remix_res : Nat → Nat → Int

/-- The inner `avcodec_receive_frame` / `remix_audio` loop of
`apply_audio_remix` for one sent packet: a negative receive status ends
the loop with that status; a nonnegative receive is followed by a remix
whose negative status breaks the loop; `frame` is the caller's
frame-handle variable, whose nullness is recorded with each receive.
An exhausted receive script is read as the decoder asking for more
input (EAGAIN). -/
def receiveLoop (sc : RemixScript) (frame : Option Unit) (pid : Nat) :
    List Int → Nat → Int × List RemixEvent
  | [], _ => (AVERROR_EAGAIN, [])
  | r :: rest, k =>
    if r < 0 then (r, [.recv frame.isNone r])
    else if sc.remix_res pid k < 0 then
      (sc.remix_res pid k,
       [.recv frame.isNone r, .remix (sc.remix_res pid k)])
    else
      ((receiveLoop sc frame pid rest (k + 1)).1,
       .recv frame.isNone r :: .remix (sc.remix_res pid k) ::
         (receiveLoop sc frame pid rest (k + 1)).2)

/-- The outer `av_read_frame` loop of `apply_audio_remix`, following the C
control flow exactly: a packet of another stream falls through to
`av_packet_unref`; a packet of the tracked stream runs send and the
receive loop, after which EAGAIN/EOF `continue`s to the next read and
any other negative status `break`s out of the loop — both without
reaching the unref at the bottom of the loop body (only the dead
nonnegative leftover case would reach it). -/
def readLoop (sc : RemixScript) (frame : Option Unit) :
    List Packet → Int × List RemixEvent
  | [] => (sc.read_end, [.read_fail sc.read_end])
  | pkt :: rest =>
    if pkt.stream_index == sc.stream_index then
      if sc.send_res pkt.pid < 0 then
        (sc.send_res pkt.pid,
         [.read pkt.pid, .send pkt.pid (sc.send_res pkt.pid)])
      else
        let inner := receiveLoop sc frame pkt.pid (sc.recv_script pkt.pid) 0
        if inner.1 == AVERROR_EAGAIN || inner.1 == AVERROR_EOF then
          ((readLoop sc frame rest).1,
           RemixEvent.read pkt.pid ::
             RemixEvent.send pkt.pid (sc.send_res pkt.pid) ::
               (inner.2 ++ (readLoop sc frame rest).2))
        else if inner.1 < 0 then
          (inner.1,
           RemixEvent.read pkt.pid ::
             RemixEvent.send pkt.pid (sc.send_res pkt.pid) :: inner.2)
        else
          ((readLoop sc frame rest).1,
           RemixEvent.read pkt.pid ::
             RemixEvent.send pkt.pid (sc.send_res pkt.pid) ::
               (inner.2 ++ RemixEvent.unref pkt.pid ::
                 (readLoop sc frame rest).2))
    else
      ((readLoop sc frame rest).1,
       RemixEvent.read pkt.pid :: RemixEvent.unref pkt.pid ::
         (readLoop sc frame rest).2)

/-- Embedding of `apply_audio_remix`: the frame-handle variable is
initialized to NULL (`AVFrame *frame = NULL;`) and never reassigned;
the read loop runs, then `av_frame_free(&frame)` is executed and the
last loop status is returned. -/
def apply_audio_remix (sc : RemixScript) : Int × List RemixEvent :=
  ((readLoop sc none sc.packets).1,
   (readLoop sc none sc.packets).2 ++ [.frame_free])

/-- The update `av_opt_set(filter, "device", devname, 0)` performs on a
node when it succeeds, applied only to "hwupload" nodes (used to state
what the propagation loop does to the whole graph). -/
def setDeviceOnHwupload (devname : String) (f : FilterNode) : FilterNode :=
  if f.fname == "hwupload" then { f with device := some devname } else f

/-- Ledger test: is this event a packet release (`av_packet_unref`)? -/
def isUnref : RemixEvent → Bool
  | .unref _ => true
  | _ => false

/-- Concrete collaborator environment: the only hardware type is "cuda"
(tag 1), context creation yields handle 7 (derivation 8), the option
string "k=v" parses to one pair, and every allocation succeeds. -/
def envOk : InitEnv where
  find_type_by_name := fun s => if s = "cuda" then some 1 else none
  type_name_of := fun _ => "cuda"
  ctx_create := fun _ _ _ => .ok 7
  ctx_create_derived := fun _ _ => .ok 8
  dict_parse := fun s => if s = "k=v" then .ok [("k", "v")] else .ok []
  strndup_type_ok := true
  strndup_name_ok := true
  strndup_device_ok := true
  name_malloc_ok := true
  add_realloc_ok := true
  add_malloc_ok := true

/-- The same environment with the registry-growth reallocation failing. -/
def envReallocFail : InitEnv := { envOk with add_realloc_ok := false }

/-- A registry holding every default-generated name `tn ++ toString i` for
`i < 1000` (all of one type), exhausting the auto-name index bound. -/
def fullRegistry (tn : String) (t : HWType) : Registry :=
  (List.range 1000).map (fun i => ⟨tn ++ toString i, t, 0⟩)

/-- Input stream requesting accel type 5 whose decoder declares exactly one
hardware config: a device-context-binding entry of type 5. -/
def istC2 : InputStreamM :=
  { hwaccel_id := 1, hwaccel_device_type := 5
    codec_hw_configs := [{ pix_fmt := 0, methods := 1, device_type := 5 }]
    set_hw_device_ctx_res := 0, buffer_ref_ok := true }

/-- Input stream requesting accel type 6 with an empty config table. -/
def istC2w : InputStreamM :=
  { hwaccel_id := 1, hwaccel_device_type := 6, codec_hw_configs := []
    set_hw_device_ctx_res := 0, buffer_ref_ok := true }

/-- A registered device of type 5 used by the encode and filter scenarios. -/
def encDev : HWDevice := ⟨"d", 5, 9⟩

/-- Encoder whose codec declares no hardware configs at all. -/
def ostNoDev : OutputStreamM :=
  { codec_hw_configs := [], get_hw_frames_parameters := fun _ _ => .ok 42
    set_hw_frames_ctx_res := fun _ => 0 }

/-- Encoder matching `encDev` whose frame-pool negotiation fails. -/
def ostNoPool : OutputStreamM :=
  { codec_hw_configs := [{ pix_fmt := 4, methods := 3, device_type := 5 }]
    get_hw_frames_parameters := fun _ _ => .error (-22)
    set_hw_frames_ctx_res := fun _ => 0 }

/-- Encoder matching `encDev` that obtains pool 42 but fails to bind it. -/
def ostBindFail : OutputStreamM :=
  { codec_hw_configs := [{ pix_fmt := 4, methods := 3, device_type := 5 }]
    get_hw_frames_parameters := fun _ _ => .ok 42
    set_hw_frames_ctx_res := fun _ => -5 }

/-- Filter collaborator: media type 0 resolves to a decoder with one
device-context entry of type 5, other types resolve to no decoder. -/
def filterEnvC8 : FilterEnv :=
  ⟨fun mt => if mt = 0 then some [{ pix_fmt := 4, methods := 1, device_type := 5 }]
    else none⟩

/-- Filter graph with one non-upload node between two "hwupload" nodes, all
option-sets succeeding. -/
def fgOk : FilterGraphM :=
  { sink_nb_inputs := 1, sink_input_type := 0
    filters := [⟨"scale", 0, none⟩, ⟨"hwupload", 0, none⟩, ⟨"hwupload", 0, none⟩] }

/-- Filter graph whose second "hwupload" node rejects the option set. -/
def fgFail : FilterGraphM :=
  { sink_nb_inputs := 1, sink_input_type := 0
    filters := [⟨"hwupload", 0, none⟩, ⟨"hwupload", -3, none⟩, ⟨"hwupload", 0, none⟩] }

/-- Filter graph whose sink has no inputs. -/
def fgNoSink : FilterGraphM :=
  { sink_nb_inputs := 0, sink_input_type := 0, filters := [⟨"hwupload", 0, none⟩] }

/-- Frame environment for the remix scenarios: allocations succeed, a
layout tag is its own channel count, a plane holds one byte per sample,
fresh memory reads 0. -/
def envAudio : FrameEnv :=
  { frame_alloc_ok := true, get_buffer_ok := true, nb_channels := fun l => l
    plane_size := fun _ n => n, fresh := 0 }

/-- A three-plane audio frame with planes `A = [1,2]`, `B = [3,4]`,
`C = [5,6]`, a three-channel layout, and distinctive metadata. -/
def frameABC : AVFrame :=
  { data := [[1, 2], [3, 4], [5, 6]], channel_layout := 3, sample_rate := 48000
    format := 8, nb_samples := 2, pts := 1234 }

/-- Script: one packet (id 0) of the tracked stream whose decoder
immediately requests more input (EAGAIN), then end of stream. -/
def sc4 : RemixScript :=
  { packets := [⟨0, 0⟩], read_end := AVERROR_EOF, stream_index := 0
    send_res := fun _ => 0, recv_script := fun _ => [AVERROR_EAGAIN]
    remix_res := fun _ _ => 0 }

/-- Script: one packet of the tracked stream that decodes one frame
(receive status 0, remix status 0) before EAGAIN, then end of stream. -/
def sc10 : RemixScript :=
  { packets := [⟨0, 0⟩], read_end := AVERROR_EOF, stream_index := 0
    send_res := fun _ => 0, recv_script := fun _ => [0, AVERROR_EAGAIN]
    remix_res := fun _ _ => 0 }

theorem getByTypeLoop_count_zero (type : HWType) (st : Registry)
    (found : Option HWDevice) (h : countType st type = 0) :
    getByTypeLoop type st found = found := by
  induction st with
  | nil => rfl
  | cons d rest ih =>
    simp only [countType, List.countP_cons] at h
    by_cases hd : d.type == type
    · simp [hd] at h
    · simp only [getByTypeLoop, hd]
      exact ih (by simpa [countType, hd] using h)

theorem getByTypeLoop_some_pos (type : HWType) (st : Registry) (f : HWDevice)
    (h : 1 ≤ countType st type) :
    getByTypeLoop type st (some f) = none := by
  induction st with
  | nil => simp [countType] at h
  | cons d rest ih =>
    by_cases hd : d.type == type
    · simp [getByTypeLoop, hd]
    · simp only [getByTypeLoop, hd]
      simp only [countType, List.countP_cons, hd] at h
      exact ih (by simpa [countType] using h)

theorem getByTypeLoop_none_one (type : HWType) (st : Registry) (m : HWDevice)
    (hm : m ∈ st) (hmt : m.type = type) (h : countType st type = 1) :
    getByTypeLoop type st none = some m := by
  induction st with
  | nil => cases hm
  | cons d rest ih =>
    simp only [countType, List.countP_cons] at h
    by_cases hd : d.type == type
    · rw [if_pos hd] at h
      have hrest : countType rest type = 0 := by unfold countType; omega
      have hdm : d = m := by
        rcases List.mem_cons.mp hm with h1 | h2
        · exact h1.symm
        · exfalso
          have : 0 < countType rest type :=
            List.countP_pos_iff.mpr ⟨m, h2, by simpa using hmt⟩
          omega
      simp only [getByTypeLoop, hd, if_pos]
      rw [hdm]
      exact getByTypeLoop_count_zero type rest (some m) hrest
    · simp only [getByTypeLoop, hd]
      rw [if_neg hd] at h
      have hm' : m ∈ rest := by
        rcases List.mem_cons.mp hm with h1 | h2
        · exact absurd (by simp [h1 ▸ hmt]) hd
        · exact h2
      exact ih hm' (by unfold countType; omega)

theorem getByTypeLoop_none_two (type : HWType) (st : Registry)
    (h : 2 ≤ countType st type) :
    getByTypeLoop type st none = none := by
  induction st with
  | nil => simp [countType] at h
  | cons d rest ih =>
    simp only [countType, List.countP_cons] at h
    by_cases hd : d.type == type
    · rw [if_pos hd] at h
      simp only [getByTypeLoop, hd, if_pos]
      exact getByTypeLoop_some_pos type rest d (by unfold countType; omega)
    · rw [if_neg hd] at h
      simp only [getByTypeLoop, hd]
      exact ih (by unfold countType; omega)

/-- C6: `hw_device_get_by_type` returns not-found when zero devices of the
type are registered, not-found when two or more are registered, and the
unique matching device when exactly one is registered. -/
theorem C6_get_by_type (st : Registry) (type : HWType) :
    (countType st type = 0 → hw_device_get_by_type st type = none) ∧
    (2 ≤ countType st type → hw_device_get_by_type st type = none) ∧
    (∀ m : HWDevice, m ∈ st → m.type = type → countType st type = 1 →
      hw_device_get_by_type st type = some m) := by
  refine ⟨fun h => getByTypeLoop_count_zero type st none h,
          fun h => getByTypeLoop_none_two type st h,
          fun m hm hmt h => getByTypeLoop_none_one type st m hm hmt h⟩

/-- Witness for C6 on a concrete registry: type 5 occurs zero times,
type 7 twice, type 3 exactly once. -/
theorem C6_get_by_type_witness :
    (countType [⟨"a", 7, 0⟩, ⟨"b", 3, 1⟩, ⟨"c", 7, 2⟩] 5 = 0 ∧
      hw_device_get_by_type [⟨"a", 7, 0⟩, ⟨"b", 3, 1⟩, ⟨"c", 7, 2⟩] 5 = none) ∧
    (2 ≤ countType [⟨"a", 7, 0⟩, ⟨"b", 3, 1⟩, ⟨"c", 7, 2⟩] 7 ∧
      hw_device_get_by_type [⟨"a", 7, 0⟩, ⟨"b", 3, 1⟩, ⟨"c", 7, 2⟩] 7 = none) ∧
    (countType [⟨"a", 7, 0⟩, ⟨"b", 3, 1⟩, ⟨"c", 7, 2⟩] 3 = 1 ∧
      hw_device_get_by_type [⟨"a", 7, 0⟩, ⟨"b", 3, 1⟩, ⟨"c", 7, 2⟩] 3 =
        some ⟨"b", 3, 1⟩) :=
  ⟨⟨by decide, (C6_get_by_type _ 5).1 (by decide)⟩,
   ⟨by decide, (C6_get_by_type _ 7).2.1 (by decide)⟩,
   ⟨by decide, (C6_get_by_type _ 3).2.2 ⟨"b", 3, 1⟩ (by decide) rfl (by decide)⟩⟩

theorem strcspn_append (a b reject : List Char) (h : ∀ c ∈ a, c ∉ reject) :
    strcspn (a ++ b) reject = a.length + strcspn b reject := by
  induction a with
  | nil => simp [strcspn]
  | cons c rest ih =>
    have hc : c ∉ reject := h c (List.mem_cons_self c rest)
    have h1 : strcspn ((c :: rest) ++ b) reject =
        strcspn (rest ++ b) reject + 1 := by
      simp [strcspn, hc]
    rw [h1, ih (fun x hx => h x (List.mem_cons_of_mem c hx)), List.length_cons]
    omega

theorem strcspn_all (a reject : List Char) (h : ∀ c ∈ a, c ∉ reject) :
    strcspn a reject = a.length := by
  have h2 := strcspn_append a [] reject h
  simp only [List.append_nil, strcspn] at h2
  omega

theorem strcspn_cons_mem (c : Char) (b reject : List Char) (h : c ∈ reject) :
    strcspn (c :: b) reject = 0 := by
  simp [strcspn, h]

theorem strchr_append (a : List Char) (c : Char) (b : List Char)
    (h : c ∉ a) : strchr (a ++ c :: b) c = some a.length := by
  induction a with
  | nil => simp [strchr]
  | cons x xs ih =>
    have hx : ¬(x = c) := fun hh => h (by rw [hh]; exact List.mem_cons_self c xs)
    simp [strchr, hx, ih (fun hh => h (List.mem_cons_of_mem x hh))]

theorem drop_append_cons (a : List Char) (c : Char) (b : List Char) :
    (a ++ c :: b).drop (a.length + 1) = b := by
  induction a with
  | nil => simp
  | cons x xs ih => simp only [List.cons_append, List.length_cons, List.drop_succ_cons]; exact ih

theorem init_registry_cases (env : InitEnv) (st : Registry) (arg : List Char) :
    (hw_device_init_from_string env st arg).2 = st ∨
      (env.add_realloc_ok = false ∧
        (hw_device_init_from_string env st arg).2 = []) ∨
      (∃ d, (hw_device_init_from_string env st arg).1 = .ok d ∧
        (hw_device_init_from_string env st arg).2 = st ++ [d]) := by
  simp only [hw_device_init_from_string, hw_device_add]
  split
  · exact .inl rfl
  · split
    · exact .inl rfl
    · split
      · exact .inl rfl
      · split
        · exact .inl rfl
        · by_cases hr : env.add_realloc_ok = false
          · rw [if_pos hr]
            exact .inr (.inl ⟨hr, rfl⟩)
          · rw [if_neg hr]
            by_cases hm : env.add_malloc_ok = false
            · rw [if_pos hm]
              exact .inl rfl
            · rw [if_neg hm]
              exact .inr (.inr ⟨_, rfl, rfl⟩)

/-- C1 (amended): when `hw_device_init_from_string` returns an error, the
registry is left exactly as it was before the call, except that a
failure of the registry-growth reallocation inside `hw_device_add`
resets it to empty (the deliberate fail-safe). -/
theorem C1_error_paths (env : InitEnv) (st : Registry) (arg : List Char)
    (e : HWErr) (h : (hw_device_init_from_string env st arg).1 = .error e) :
    (hw_device_init_from_string env st arg).2 = st ∨
      (env.add_realloc_ok = false ∧
        (hw_device_init_from_string env st arg).2 = []) := by
  rcases init_registry_cases env st arg with h1 | h1 | ⟨d, h1, _⟩
  · exact .inl h1
  · exact .inr h1
  · rw [h1] at h
    cases h

/-- Witness for C1 at a concrete input: an unknown-type specification fails
and leaves the one-entry registry unchanged. -/
theorem C1_error_paths_witness :
    (hw_device_init_from_string envOk [⟨"x", 9, 0⟩] ("nope".toList)).1 =
      .error (.einval "unknown device type") ∧
    ((hw_device_init_from_string envOk [⟨"x", 9, 0⟩] ("nope".toList)).2 =
        [⟨"x", 9, 0⟩] ∨
      (envOk.add_realloc_ok = false ∧
        (hw_device_init_from_string envOk [⟨"x", 9, 0⟩] ("nope".toList)).2 = [])) :=
  ⟨rfl, C1_error_paths envOk [⟨"x", 9, 0⟩] ("nope".toList)
    (.einval "unknown device type") rfl⟩

/-- C1 counterexample: with one device registered and every collaborator
succeeding, a call that fails only at the registry-growth reallocation
returns an error yet empties the registry — an error path on which the
device count changes from one to zero. -/
theorem C1_counterexample :
    (hw_device_init_from_string envReallocFail [⟨"x", 9, 0⟩]
        ("cuda".toList)).1 = .error .enomem ∧
    (hw_device_init_from_string envReallocFail [⟨"x", 9, 0⟩]
        ("cuda".toList)).2 = [] ∧
    ([] : Registry) ≠ [⟨"x", 9, 0⟩] :=
  ⟨rfl, rfl, by decide⟩

theorem get_by_name_append (st : Registry) (d : HWDevice)
    (h : hw_device_get_by_name st d.name = none) :
    hw_device_get_by_name (st ++ [d]) d.name = some d := by
  unfold hw_device_get_by_name at *
  rw [List.find?_append, h]
  simp [List.find?]

theorem get_by_name_append_other (st : Registry) (d : HWDevice) (n : String)
    (h : hw_device_get_by_name st n = none) (hne : d.name ≠ n) :
    hw_device_get_by_name (st ++ [d]) n = none := by
  unfold hw_device_get_by_name at *
  rw [List.find?_append, h]
  have hb : (d.name == n) = false := beq_eq_false_iff_ne.mpr hne
  simp [List.find?, hb]

/-- C5: a valid specification `type=name:path,opt=val` (each component free
of the delimiters that end it, the path nonempty) parses, creates and
registers a device that a subsequent `hw_device_get_by_name` lookup
returns with the parsed type; a second call with the same explicit name
fails with the EINVAL "named device already exists" error, leaving the
registry unchanged. -/
theorem C5_spec_roundtrip (env : InitEnv) (st : Registry)
    (tstr nstr pstr ostr : List Char) (t : HWType)
    (opts : List (String × String)) (ref : Nat)
    (hT : ∀ c ∈ tstr, c ∉ [':', '=', '@'])
    (hN : ∀ c ∈ nstr, c ∉ [':', '@', ','])
    (hP : ',' ∉ pstr) (hPne : pstr ≠ [])
    (hFind : env.find_type_by_name tstr.asString = some t)
    (hName : hw_device_get_by_name st nstr.asString = none)
    (hDict : env.dict_parse ostr.asString = .ok opts)
    (hCreate : env.ctx_create t (some pstr.asString) opts = .ok ref)
    (h1 : env.strndup_type_ok = true) (h2 : env.strndup_name_ok = true)
    (h3 : env.strndup_device_ok = true) (h4 : env.add_realloc_ok = true)
    (h5 : env.add_malloc_ok = true) :
    hw_device_init_from_string env st
        (tstr ++ '=' :: (nstr ++ ':' :: (pstr ++ ',' :: ostr))) =
      (.ok ⟨nstr.asString, t, ref⟩, st ++ [⟨nstr.asString, t, ref⟩]) ∧
    hw_device_get_by_name (st ++ [⟨nstr.asString, t, ref⟩]) nstr.asString =
      some ⟨nstr.asString, t, ref⟩ ∧
    hw_device_init_from_string env (st ++ [⟨nstr.asString, t, ref⟩])
        (tstr ++ '=' :: (nstr ++ ':' :: (pstr ++ ',' :: ostr))) =
      (.error (.einval "named device already exists"),
        st ++ [⟨nstr.asString, t, ref⟩]) := by
  have hk : strcspn (tstr ++ '=' :: (nstr ++ ':' :: (pstr ++ ',' :: ostr)))
      [':', '=', '@'] = tstr.length := by
    rw [strcspn_append _ _ _ hT, strcspn_cons_mem _ _ _ (by decide),
      Nat.add_zero]
  have hk2 : strcspn (nstr ++ ':' :: (pstr ++ ',' :: ostr)) [':', '@', ','] =
      nstr.length := by
    rw [strcspn_append _ _ _ hN, strcspn_cons_mem _ _ _ (by decide),
      Nat.add_zero]
  have hq : strchr (pstr ++ ',' :: ostr) ',' = some pstr.length :=
    strchr_append pstr ',' ostr hP
  have hqpos : 0 < pstr.length := List.length_pos.mpr hPne
  have hbody : initBodyStep env st t (':' :: (pstr ++ ',' :: ostr)) =
      .ok ref := by
    simp only [initBodyStep, hq]
    rw [if_neg (by simp [h3])]
    rw [if_pos hqpos, List.take_left, drop_append_cons]
    simp only [hDict, hCreate]
  have hnamestep : initNameStep env st t
      ('=' :: (nstr ++ ':' :: (pstr ++ ',' :: ostr))) =
        .ok (nstr.asString, ':' :: (pstr ++ ',' :: ostr)) := by
    simp only [initNameStep, hk2]
    rw [if_neg (by simp [h2]), List.take_left, List.drop_left]
    rw [if_neg (by simp [hName])]
  have hfirst : hw_device_init_from_string env st
      (tstr ++ '=' :: (nstr ++ ':' :: (pstr ++ ',' :: ostr))) =
      (.ok ⟨nstr.asString, t, ref⟩, st ++ [⟨nstr.asString, t, ref⟩]) := by
    simp only [hw_device_init_from_string]
    rw [hk, List.take_left, List.drop_left]
    rw [if_neg (by simp [h1])]
    simp [hFind, hnamestep, hbody, hw_device_add, h4, h5]
  have hlook : hw_device_get_by_name (st ++ [⟨nstr.asString, t, ref⟩])
      nstr.asString = some ⟨nstr.asString, t, ref⟩ :=
    get_by_name_append st ⟨nstr.asString, t, ref⟩ hName
  refine ⟨hfirst, hlook, ?_⟩
  have hnamestep2 : initNameStep env (st ++ [⟨nstr.asString, t, ref⟩]) t
      ('=' :: (nstr ++ ':' :: (pstr ++ ',' :: ostr))) =
        .error (.einval "named device already exists") := by
    simp only [initNameStep, hk2]
    rw [if_neg (by simp [h2]), List.take_left]
    rw [if_pos (by simp [hlook])]
  simp only [hw_device_init_from_string]
  rw [hk, List.take_left, List.drop_left]
  rw [if_neg (by simp [h1])]
  simp [hFind, hnamestep2]

/-- Witness for C5 at the concrete specification "cuda=gpu:0,k=v" on the
empty registry. -/
theorem C5_spec_roundtrip_witness :
    hw_device_init_from_string envOk []
        ("cuda".toList ++ '=' ::
          ("gpu".toList ++ ':' :: ("0".toList ++ ',' :: "k=v".toList))) =
      (.ok ⟨"gpu", 1, 7⟩, [⟨"gpu", 1, 7⟩]) ∧
    hw_device_get_by_name [⟨"gpu", 1, 7⟩] "gpu" = some ⟨"gpu", 1, 7⟩ ∧
    hw_device_init_from_string envOk [⟨"gpu", 1, 7⟩]
        ("cuda".toList ++ '=' ::
          ("gpu".toList ++ ':' :: ("0".toList ++ ',' :: "k=v".toList))) =
      (.error (.einval "named device already exists"), [⟨"gpu", 1, 7⟩]) :=
  C5_spec_roundtrip envOk [] "cuda".toList "gpu".toList "0".toList
    "k=v".toList 1 [("k", "v")] 7 (by decide) (by decide) (by decide)
    (by decide) rfl rfl rfl rfl rfl rfl rfl rfl rfl

theorem defaultNameLoop_found (st : Registry) (tn : String) (index fuel : Nat)
    (hfuel : 0 < fuel)
    (h : (hw_device_get_by_name st (tn ++ toString index)).isNone = true) :
    defaultNameLoop st tn index fuel = some (tn ++ toString index) := by
  cases fuel with
  | zero => omega
  | succ f => simp [defaultNameLoop, h]

theorem defaultNameLoop_step (st : Registry) (tn : String) (index fuel : Nat)
    (h : (hw_device_get_by_name st (tn ++ toString index)).isNone = false) :
    defaultNameLoop st tn index (fuel + 1) =
      defaultNameLoop st tn (index + 1) fuel := by
  simp [defaultNameLoop, h]

theorem defaultNameLoop_exhaust (st : Registry) (tn : String) :
    ∀ fuel index,
      (∀ j, index ≤ j → j < index + fuel →
        (hw_device_get_by_name st (tn ++ toString j)).isSome = true) →
      defaultNameLoop st tn index fuel = none := by
  intro fuel
  induction fuel with
  | zero => intro index _; rfl
  | succ f ih =>
    intro index h
    have h0 := h index le_rfl (by omega)
    have hn : (hw_device_get_by_name st (tn ++ toString index)).isNone =
        false := by
      rcases hv : hw_device_get_by_name st (tn ++ toString index) with _ | d
      · rw [hv] at h0
        simp at h0
      · simp
    rw [defaultNameLoop_step st tn index f hn]
    exact ih (index + 1) (fun j hj1 hj2 => h j (by omega) (by omega))

theorem append_digit_ne (tn : String) : tn ++ "0" ≠ tn ++ "1" := by
  intro h
  have h2 := congrArg String.data h
  simp [String.data_append] at h2

theorem fullRegistry_lookup (tn : String) (t : HWType) (i : Nat)
    (h : i < 1000) :
    (hw_device_get_by_name (fullRegistry tn t) (tn ++ toString i)).isSome =
      true := by
  unfold hw_device_get_by_name fullRegistry
  rw [List.find?_isSome]
  exact ⟨⟨tn ++ toString i, t, 0⟩,
    List.mem_map.mpr ⟨i, List.mem_range.mpr h, rfl⟩, by simp⟩

/-- C9: from a registry where the first two default names for the type are
free, two no-name registrations of that type receive the auto-generated
names `tn ++ "0"` and `tn ++ "1"` (where `tn` is the type's name); and
on any registry in which every candidate `tn ++ toString i` for
`i < 1000` is taken, name generation exhausts its bound of 1000 and the
call fails with the OutOfMemory-class error, leaving the registry
unchanged. -/
theorem C9_auto_naming (env : InitEnv) (st : Registry) (tstr : List Char)
    (t : HWType) (ref : Nat)
    (hT : ∀ c ∈ tstr, c ∉ [':', '=', '@'])
    (hFind : env.find_type_by_name tstr.asString = some t)
    (hCreate : env.ctx_create t none [] = .ok ref)
    (h1 : env.strndup_type_ok = true) (h2 : env.name_malloc_ok = true)
    (h4 : env.add_realloc_ok = true) (h5 : env.add_malloc_ok = true)
    (h0 : hw_device_get_by_name st (env.type_name_of t ++ "0") = none)
    (hone : hw_device_get_by_name st (env.type_name_of t ++ "1") = none) :
    (hw_device_init_from_string env st tstr =
      (.ok ⟨env.type_name_of t ++ "0", t, ref⟩,
        st ++ [⟨env.type_name_of t ++ "0", t, ref⟩]) ∧
     hw_device_init_from_string env
        (st ++ [⟨env.type_name_of t ++ "0", t, ref⟩]) tstr =
      (.ok ⟨env.type_name_of t ++ "1", t, ref⟩,
        (st ++ [⟨env.type_name_of t ++ "0", t, ref⟩]) ++
          [⟨env.type_name_of t ++ "1", t, ref⟩])) ∧
    (∀ st' : Registry,
      (∀ i, i < 1000 →
        (hw_device_get_by_name st'
          (env.type_name_of t ++ toString i)).isSome = true) →
      hw_device_init_from_string env st' tstr = (.error .enomem, st')) := by
  have hk : strcspn tstr [':', '=', '@'] = tstr.length := strcspn_all _ _ hT
  have hts0 : (toString (0 : Nat)) = "0" := rfl
  have hts1 : (toString (1 : Nat)) = "1" := rfl
  have key : ∀ (R : Registry) (dn : String),
      hw_device_default_name R (env.type_name_of t) env.name_malloc_ok =
        some dn →
      hw_device_init_from_string env R tstr =
        (.ok ⟨dn, t, ref⟩, R ++ [⟨dn, t, ref⟩]) := by
    intro R dn hdn
    simp only [hw_device_init_from_string]
    rw [hk, List.take_length, List.drop_length]
    rw [if_neg (by simp [h1])]
    simp only [hFind, initNameStep, hdn, initBodyStep, hCreate]
    simp [hw_device_add, h4, h5]
  have keyerr : ∀ R : Registry,
      hw_device_default_name R (env.type_name_of t) env.name_malloc_ok =
        none →
      hw_device_init_from_string env R tstr = (.error .enomem, R) := by
    intro R hdn
    simp only [hw_device_init_from_string]
    rw [hk, List.take_length, List.drop_length]
    rw [if_neg (by simp [h1])]
    simp [hFind, initNameStep, hdn]
  have hdn0 : hw_device_default_name st (env.type_name_of t)
      env.name_malloc_ok = some (env.type_name_of t ++ "0") := by
    unfold hw_device_default_name
    rw [if_neg (by simp [h2])]
    have hfound := defaultNameLoop_found st (env.type_name_of t) 0 1000
      (by omega) (by rw [hts0, h0]; rfl)
    rw [hts0] at hfound
    exact hfound
  have hfirst := key st (env.type_name_of t ++ "0") hdn0
  have hlook0 : hw_device_get_by_name
      (st ++ [⟨env.type_name_of t ++ "0", t, ref⟩])
      (env.type_name_of t ++ "0") = some ⟨env.type_name_of t ++ "0", t, ref⟩ :=
    get_by_name_append st _ h0
  have hlook1 : hw_device_get_by_name
      (st ++ [⟨env.type_name_of t ++ "0", t, ref⟩])
      (env.type_name_of t ++ "1") = none :=
    get_by_name_append_other st _ _ hone (append_digit_ne _)
  have hdn1 : hw_device_default_name
      (st ++ [⟨env.type_name_of t ++ "0", t, ref⟩]) (env.type_name_of t)
      env.name_malloc_ok = some (env.type_name_of t ++ "1") := by
    unfold hw_device_default_name
    rw [if_neg (by simp [h2])]
    rw [show (1000 : Nat) = 999 + 1 from rfl]
    rw [defaultNameLoop_step _ _ 0 999 (by rw [hts0, hlook0]; rfl)]
    have hfound := defaultNameLoop_found
      (st ++ [⟨env.type_name_of t ++ "0", t, ref⟩]) (env.type_name_of t) 1 999
      (by omega) (by rw [hts1, hlook1]; rfl)
    rw [hts1] at hfound
    exact hfound
  refine ⟨⟨hfirst, key _ (env.type_name_of t ++ "1") hdn1⟩, ?_⟩
  intro st' hall
  refine keyerr st' ?_
  unfold hw_device_default_name
  rw [if_neg (by simp [h2])]
  exact defaultNameLoop_exhaust st' (env.type_name_of t) 1000 0
    (fun j _ hj2 => hall j (by omega))

/-- Witness for C9: two "cuda" registrations on the empty registry receive
names "cuda0" and "cuda1"; on the registry holding all 1000 candidate
names, the call fails with ENOMEM and mutates nothing. -/
theorem C9_auto_naming_witness :
    (hw_device_init_from_string envOk [] ("cuda".toList) =
      (.ok ⟨"cuda0", 1, 7⟩, [⟨"cuda0", 1, 7⟩]) ∧
     hw_device_init_from_string envOk [⟨"cuda0", 1, 7⟩] ("cuda".toList) =
      (.ok ⟨"cuda1", 1, 7⟩, [⟨"cuda0", 1, 7⟩, ⟨"cuda1", 1, 7⟩])) ∧
    hw_device_init_from_string envOk (fullRegistry "cuda" 1) ("cuda".toList) =
      (.error .enomem, fullRegistry "cuda" 1) := by
  have h := C9_auto_naming envOk [] ("cuda".toList) 1 7 (by decide) rfl rfl
    rfl rfl rfl rfl rfl rfl
  exact ⟨h.1, h.2 (fullRegistry "cuda" 1)
    (fun i hi => fullRegistry_lookup "cuda" 1 i hi)⟩

theorem decodeConfigLoop_no_device (st : Registry) (req : HWType)
    (h : hw_device_get_by_type st req = none) :
    ∀ table, decodeConfigLoop st req table = .error .enosys := by
  intro table
  induction table with
  | nil => rfl
  | cons c rest ih =>
    simp only [decodeConfigLoop]
    by_cases hm : (c.methods &&& AV_CODEC_HW_CONFIG_METHOD_HW_DEVICE_CTX == 0) = true
    · simp [hm, ih]
    · by_cases ht : (c.device_type == req) = true
      · have heq : c.device_type = req := by simpa using ht
        rw [heq] at *
        simp [hm, ht, h, ih]
      · simp [hm, ht, ih]

theorem decodeConfigLoop_not_ok_none (st : Registry) (req : HWType) :
    ∀ table, decodeConfigLoop st req table ≠ .ok none := by
  intro table
  induction table with
  | nil => simp [decodeConfigLoop]
  | cons c rest ih =>
    simp only [decodeConfigLoop]
    by_cases hm : (c.methods &&& AV_CODEC_HW_CONFIG_METHOD_HW_DEVICE_CTX == 0) = true
    · simpa [hm] using ih
    · by_cases ht : (c.device_type == req) = true
      · rcases hgt : hw_device_get_by_type st c.device_type with _ | dev
        · simpa [hm, ht, hgt] using ih
        · simp [hm, ht, hgt]
      · simpa [hm, ht] using ih

theorem decodeConfigLoop_error_enosys (st : Registry) (req : HWType) :
    ∀ table e, decodeConfigLoop st req table = .error e → e = .enosys := by
  intro table
  induction table with
  | nil =>
    intro e h
    simp only [decodeConfigLoop] at h
    cases h
    rfl
  | cons c rest ih =>
    intro e h
    simp only [decodeConfigLoop] at h
    by_cases hm : (c.methods &&& AV_CODEC_HW_CONFIG_METHOD_HW_DEVICE_CTX == 0) = true
    · rw [if_pos hm] at h
      exact ih e h
    · rw [if_neg hm] at h
      by_cases ht : (c.device_type == req) = true
      · rw [if_pos ht] at h
        rcases hgt : hw_device_get_by_type st c.device_type with _ | dev
        · rw [hgt] at h
          exact ih e h
        · rw [hgt] at h
          cases h
      · rw [if_neg ht] at h
        exact ih e h

/-- C2 (amended): with a hardware-accel request and no uniquely registered
device of the requested type, `hw_device_setup_for_decode` fails with
the ENOSYS "Decoder does not support any device type" error — even when
the config table does contain a device-context entry of the requested
type — because the scan continues past such an entry; the EINVAL "No
suitable hwaccel device found" error is unreachable for every registry
and stream. -/
theorem C2_decode_errors (st : Registry) (ist : InputStreamM)
    (hreq : ist.hwaccel_id ≠ HWACCEL_NONE)
    (hnone : hw_device_get_by_type st ist.hwaccel_device_type = none) :
    hw_device_setup_for_decode st ist = .error .enosys ∧
    ∀ (st' : Registry) (ist' : InputStreamM),
      hw_device_setup_for_decode st' ist' ≠
        .error (.einval "No suitable hwaccel device found") := by
  constructor
  · simp only [hw_device_setup_for_decode]
    rw [if_neg (by simp [hreq])]
    simp [decodeConfigLoop_no_device st ist.hwaccel_device_type hnone]
  · intro st' ist'
    simp only [hw_device_setup_for_decode]
    by_cases hid : (ist'.hwaccel_id == HWACCEL_NONE) = true
    · simp [hid]
    · rw [if_neg hid]
      rcases hres : decodeConfigLoop st' ist'.hwaccel_device_type
          ist'.codec_hw_configs with e | od
      · have he : e = .enosys :=
          decodeConfigLoop_error_enosys st' ist'.hwaccel_device_type
            ist'.codec_hw_configs e hres
        rw [he]
        simp
      · rcases od with _ | dev
        · exact absurd hres
            (decodeConfigLoop_not_ok_none st' ist'.hwaccel_device_type
              ist'.codec_hw_configs)
        · by_cases hset : ist'.set_hw_device_ctx_res < 0
          · simp [hset]
          · by_cases href : ist'.buffer_ref_ok = false
            · simp [hset, href]
            · simp [hset, href]

/-- C2 counterexample: a decoder table holding exactly one device-context
entry of the requested type 5 with no device registered makes the call
fail with ENOSYS ("Decoder does not support any device type"), not with
the EINVAL "No suitable hwaccel device found" error the claim names. -/
theorem C2_counterexample :
    istC2.hwaccel_id ≠ HWACCEL_NONE ∧
    (∃ c ∈ istC2.codec_hw_configs,
      c.methods &&& AV_CODEC_HW_CONFIG_METHOD_HW_DEVICE_CTX ≠ 0 ∧
      c.device_type = istC2.hwaccel_device_type) ∧
    hw_device_get_by_type [] istC2.hwaccel_device_type = none ∧
    hw_device_setup_for_decode [] istC2 = .error .enosys ∧
    (.error .enosys : Except HWErr Unit) ≠
      .error (.einval "No suitable hwaccel device found") := by
  refine ⟨by decide, ?_, rfl, rfl, by simp⟩
  exact ⟨⟨0, 1, 5⟩, by decide, by decide, rfl⟩

/-- Witness for C2 at a concrete input: accel type 6 requested, nothing
registered, empty config table. -/
theorem C2_decode_errors_witness :
    istC2w.hwaccel_id ≠ HWACCEL_NONE ∧
    hw_device_get_by_type [] istC2w.hwaccel_device_type = none ∧
    (hw_device_setup_for_decode [] istC2w = .error .enosys ∧
     ∀ (st' : Registry) (ist' : InputStreamM),
       hw_device_setup_for_decode st' ist' ≠
         .error (.einval "No suitable hwaccel device found")) :=
  ⟨by decide, rfl, C2_decode_errors [] istC2w (by decide) rfl⟩

/-- C7: `hw_device_setup_for_encode` succeeds as a no-op (no frame pool
bound) when the capability matcher finds no device for the encoder's
codec, and also when frame-pool negotiation yields no pool; when a pool
is obtained but binding it to the encoder fails, the pool is released
(final `ost->hw_frames_ctx` NULL) and the bind error is returned. -/
theorem C7_encode_paths (st : Registry) (ost : OutputStreamM) :
    (hw_device_match_by_codec st ost.codec_hw_configs = none →
      hw_device_setup_for_encode st ost = (.ok (), none)) ∧
    (∀ dev, hw_device_match_by_codec st ost.codec_hw_configs = some dev →
      set_hwframe_ctx ost dev ost.codec_hw_configs = none →
      hw_device_setup_for_encode st ost = (.ok (), none)) ∧
    (∀ dev pool, hw_device_match_by_codec st ost.codec_hw_configs = some dev →
      set_hwframe_ctx ost dev ost.codec_hw_configs = some pool →
      ost.set_hw_frames_ctx_res pool < 0 →
      hw_device_setup_for_encode st ost =
        (.error (ost.set_hw_frames_ctx_res pool), none)) := by
  refine ⟨?_, ?_, ?_⟩
  · intro h
    simp [hw_device_setup_for_encode, h]
  · intro dev h1 h2
    simp [hw_device_setup_for_encode, h1, h2]
  · intro dev pool h1 h2 h3
    simp [hw_device_setup_for_encode, h1, h2, h3]

/-- Witness for C7 on three concrete encoders against the registry holding
only `encDev`: an empty config table (no device), a matching table with
failing negotiation (no pool), and a matching table with pool 42 whose
bind returns -5. -/
theorem C7_encode_paths_witness :
    (hw_device_match_by_codec [encDev] ostNoDev.codec_hw_configs = none ∧
      hw_device_setup_for_encode [encDev] ostNoDev = (.ok (), none)) ∧
    (hw_device_match_by_codec [encDev] ostNoPool.codec_hw_configs =
        some encDev ∧
      set_hwframe_ctx ostNoPool encDev ostNoPool.codec_hw_configs = none ∧
      hw_device_setup_for_encode [encDev] ostNoPool = (.ok (), none)) ∧
    (hw_device_match_by_codec [encDev] ostBindFail.codec_hw_configs =
        some encDev ∧
      set_hwframe_ctx ostBindFail encDev ostBindFail.codec_hw_configs =
        some 42 ∧
      ostBindFail.set_hw_frames_ctx_res 42 < 0 ∧
      hw_device_setup_for_encode [encDev] ostBindFail =
        (.error (-5), none)) :=
  ⟨⟨rfl, (C7_encode_paths [encDev] ostNoDev).1 rfl⟩,
   ⟨rfl, rfl, (C7_encode_paths [encDev] ostNoPool).2.1 encDev rfl rfl⟩,
   ⟨rfl, rfl, by decide,
    (C7_encode_paths [encDev] ostBindFail).2.2 encDev 42 rfl rfl (by decide)⟩⟩

theorem hwuploadSetLoop_all_ok (devname : String) (fs : List FilterNode)
    (h : ∀ f ∈ fs, f.fname = "hwupload" → 0 ≤ f.opt_set_res) :
    hwuploadSetLoop devname fs =
      (.ok (), fs.map (setDeviceOnHwupload devname)) := by
  induction fs with
  | nil => rfl
  | cons f rest ih =>
    have ihr := ih (fun g hg hgn => h g (List.mem_cons_of_mem f hg) hgn)
    simp only [hwuploadSetLoop, List.map_cons]
    by_cases hf : (f.fname == "hwupload") = true
    · have hres : 0 ≤ f.opt_set_res :=
        h f (List.mem_cons_self f rest) (by simpa using hf)
      have hnl : ¬f.opt_set_res < 0 := not_lt.mpr hres
      simp [hf, hnl, ihr, setDeviceOnHwupload]
    · simp [hf, ihr, setDeviceOnHwupload]

theorem hwuploadSetLoop_first_fail (devname : String) (pre : List FilterNode)
    (bad : FilterNode) (post : List FilterNode)
    (hpre : ∀ f ∈ pre, f.fname = "hwupload" → 0 ≤ f.opt_set_res)
    (hbad : bad.fname = "hwupload") (hres : bad.opt_set_res < 0) :
    hwuploadSetLoop devname (pre ++ bad :: post) =
      (.error bad.opt_set_res,
        pre.map (setDeviceOnHwupload devname) ++ bad :: post) := by
  induction pre with
  | nil => simp [hwuploadSetLoop, hbad, hres]
  | cons f rest ih =>
    have ihr := ih (fun g hg hgn => hpre g (List.mem_cons_of_mem f hg) hgn)
    simp only [List.cons_append, hwuploadSetLoop, List.map_cons]
    by_cases hf : (f.fname == "hwupload") = true
    · have hok : 0 ≤ f.opt_set_res :=
        hpre f (List.mem_cons_self f rest) (by simpa using hf)
      have hnl : ¬f.opt_set_res < 0 := not_lt.mpr hok
      simp [hf, hnl, ihr, setDeviceOnHwupload]
    · simp [hf, ihr, setDeviceOnHwupload]

/-- C8: once a device is selected (sink has inputs, decoder resolves,
matcher finds a device), the `device` option is set to the device's
name on every "hwupload" node in graph order when all option-sets
succeed; the first failing option-set aborts immediately with that
status, leaving the failing node and every later node untouched; and
each no-device case (no sink inputs, no decoder, no matching device)
succeeds without modifying any filter. -/
theorem C8_filter_binding (st : Registry) (env : FilterEnv)
    (fg : FilterGraphM) :
    (∀ configs dev,
      fg.sink_nb_inputs ≠ 0 →
      env.find_decoder fg.sink_input_type = some configs →
      hw_device_match_by_codec st configs = some dev →
      ((∀ f ∈ fg.filters, f.fname = "hwupload" → 0 ≤ f.opt_set_res) →
        hw_device_setup_for_filter st env fg =
          (.ok (), fg.filters.map (setDeviceOnHwupload dev.name))) ∧
      (∀ pre bad post,
        fg.filters = pre ++ bad :: post →
        (∀ f ∈ pre, f.fname = "hwupload" → 0 ≤ f.opt_set_res) →
        bad.fname = "hwupload" → bad.opt_set_res < 0 →
        hw_device_setup_for_filter st env fg =
          (.error bad.opt_set_res,
            pre.map (setDeviceOnHwupload dev.name) ++ bad :: post))) ∧
    ((fg.sink_nb_inputs = 0 ∨ env.find_decoder fg.sink_input_type = none ∨
      (∃ configs, env.find_decoder fg.sink_input_type = some configs ∧
        hw_device_match_by_codec st configs = none)) →
      hw_device_setup_for_filter st env fg = (.ok (), fg.filters)) := by
  constructor
  · intro configs dev hsink hdec hmatch
    constructor
    · intro hall
      simp only [hw_device_setup_for_filter]
      rw [if_neg (by simp [hsink])]
      simp only [hdec, hmatch]
      exact hwuploadSetLoop_all_ok dev.name fg.filters hall
    · intro pre bad post hsplit hpre hbad hres
      simp only [hw_device_setup_for_filter]
      rw [if_neg (by simp [hsink])]
      simp only [hdec, hmatch, hsplit]
      exact hwuploadSetLoop_first_fail dev.name pre bad post hpre hbad hres
  · intro hcase
    rcases hcase with hz | hdec | ⟨configs, hdec, hmatch⟩
    · simp [hw_device_setup_for_filter, hz]
    · simp only [hw_device_setup_for_filter]
      by_cases hz : (fg.sink_nb_inputs == 0) = true
      · simp [hz]
      · rw [if_neg hz]
        simp [hdec]
    · simp only [hw_device_setup_for_filter]
      by_cases hz : (fg.sink_nb_inputs == 0) = true
      · simp [hz]
      · rw [if_neg hz]
        simp [hdec, hmatch]

/-- Witness for C8 on concrete graphs against the registry holding only
`encDev`: a graph whose two "hwupload" nodes both accept the option, a
graph whose second "hwupload" node rejects it with -3, and a graph
whose sink has no inputs. -/
theorem C8_filter_binding_witness :
    (hw_device_setup_for_filter [encDev] filterEnvC8 fgOk =
      (.ok (), [⟨"scale", 0, none⟩, ⟨"hwupload", 0, some "d"⟩,
        ⟨"hwupload", 0, some "d"⟩]) ∧
     hw_device_setup_for_filter [encDev] filterEnvC8 fgFail =
      (.error (-3), [⟨"hwupload", 0, some "d"⟩, ⟨"hwupload", -3, none⟩,
        ⟨"hwupload", 0, none⟩])) ∧
    hw_device_setup_for_filter [encDev] filterEnvC8 fgNoSink =
      (.ok (), fgNoSink.filters) := by
  have h1 := (C8_filter_binding [encDev] filterEnvC8 fgOk).1
    [⟨4, 1, 5⟩] encDev (by decide) rfl rfl
  have h2 := (C8_filter_binding [encDev] filterEnvC8 fgFail).1
    [⟨4, 1, 5⟩] encDev (by decide) rfl rfl
  have h3 := (C8_filter_binding [encDev] filterEnvC8 fgNoSink).2
    (.inl rfl)
  refine ⟨⟨?_, ?_⟩, h3⟩
  · have := h1.1 (by decide)
    rw [this]
    rfl
  · have := h2.2 [⟨"hwupload", 0, none⟩] ⟨"hwupload", -3, none⟩
      [⟨"hwupload", 0, none⟩] rfl (by decide) rfl (by decide)
    rw [this]
    rfl

theorem memcpyBytes_full (dst src : List Int) (L : Nat)
    (hsrc : src.length = L) (hdst : dst.length = L) :
    memcpyBytes dst src L = src := by
  unfold memcpyBytes
  have hd : dst.drop L = [] := by
    rw [← hdst]
    exact List.drop_length dst
  rw [hd, ← hsrc, List.take_length]
  exact List.append_nil src

theorem remixCopyLoop_zero (srcData : List (List Int)) (remix_map : List Nat)
    (linesize : Nat) :
    ∀ i base, remixCopyLoop srcData remix_map linesize 0 i base = base := by
  intro i base
  induction base generalizing i with
  | nil => rfl
  | cons d ds ih => simp [remixCopyLoop, ih]

/-- C3 (amended): for a three-plane input `[A, B, C]` whose channel layout
dictates three planes, `remix_map = [2, 0]` with `remix_size = 2`
succeeds and the frame handle afterwards holds a frame with THREE
planes — the plane count follows the copied channel layout, not
`remix_size` — planes 0 and 1 being copies of `C` and `A` and plane 2
keeping its freshly allocated contents, with the original sample rate,
sample format, sample count and frame properties preserved; and
`remix_size = 0` succeeds, yielding three freshly allocated planes (not
zero planes), with the same metadata preserved. -/
theorem C3_remix (env : FrameEnv) (frame : AVFrame) (A B C : List Int)
    (h1 : env.frame_alloc_ok = true) (h2 : env.get_buffer_ok = true)
    (hdata : frame.data = [A, B, C])
    (hch : env.nb_channels frame.channel_layout = 3)
    (hA : A.length = env.plane_size frame.format frame.nb_samples)
    (hC : C.length = env.plane_size frame.format frame.nb_samples) :
    remix_audio env frame [2, 0] 2 =
      .ok { data := [C, A,
              List.replicate (env.plane_size frame.format frame.nb_samples)
                env.fresh]
            channel_layout := frame.channel_layout
            sample_rate := frame.sample_rate
            format := frame.format
            nb_samples := frame.nb_samples
            pts := frame.pts } ∧
    remix_audio env frame [2, 0] 0 =
      .ok { data := List.replicate 3
              (List.replicate (env.plane_size frame.format frame.nb_samples)
                env.fresh)
            channel_layout := frame.channel_layout
            sample_rate := frame.sample_rate
            format := frame.format
            nb_samples := frame.nb_samples
            pts := frame.pts } := by
  have hFlen : (List.replicate (env.plane_size frame.format frame.nb_samples)
      env.fresh).length = env.plane_size frame.format frame.nb_samples :=
    List.length_replicate _ _
  have m1 : memcpyBytes
      (List.replicate (env.plane_size frame.format frame.nb_samples) env.fresh)
      C (env.plane_size frame.format frame.nb_samples) = C :=
    memcpyBytes_full _ _ _ hC hFlen
  have m2 : memcpyBytes
      (List.replicate (env.plane_size frame.format frame.nb_samples) env.fresh)
      A (env.plane_size frame.format frame.nb_samples) = A :=
    memcpyBytes_full _ _ _ hA hFlen
  constructor
  · simp only [remix_audio]
    rw [if_neg (by simp [h1]), if_neg (by simp [h2]), hch, hdata]
    simp [remixCopyLoop, List.getD, m1, m2, List.replicate]
  · simp only [remix_audio]
    rw [if_neg (by simp [h1]), if_neg (by simp [h2]), hch,
      remixCopyLoop_zero frame.data [2, 0]
        (env.plane_size frame.format frame.nb_samples) 0 _]

/-- C3 counterexample: on the three-plane frame `frameABC` with
`remix_map = [2, 0]` and `remix_size = 2`, the resulting frame holds 3
planes (the copied three-channel layout dictates three allocated
planes), not exactly 2 as the claim states; and with `remix_size = 0`
it holds 3 freshly allocated planes, not a zero-plane frame. -/
theorem C3_counterexample :
    remix_audio envAudio frameABC [2, 0] 2 =
      .ok { data := [[5, 6], [1, 2], [0, 0]], channel_layout := 3
            sample_rate := 48000, format := 8, nb_samples := 2
            pts := 1234 } ∧
    ([[5, 6], [1, 2], [0, 0]] : List (List Int)).length = 3 ∧ (3 : Nat) ≠ 2 ∧
    remix_audio envAudio frameABC [2, 0] 0 =
      .ok { data := [[0, 0], [0, 0], [0, 0]], channel_layout := 3
            sample_rate := 48000, format := 8, nb_samples := 2
            pts := 1234 } ∧
    ([[0, 0], [0, 0], [0, 0]] : List (List Int)).length ≠ 0 :=
  ⟨rfl, rfl, by decide, rfl, by decide⟩

/-- Witness for C3 at the concrete frame `frameABC`: planes `[C, A, fresh]`
with metadata preserved for `remix_size = 2`, three fresh planes for
`remix_size = 0`. -/
theorem C3_remix_witness :
    remix_audio envAudio frameABC [2, 0] 2 =
      .ok { data := [[5, 6], [1, 2], List.replicate 2 (0 : Int)]
            channel_layout := 3, sample_rate := 48000, format := 8
            nb_samples := 2, pts := 1234 } ∧
    remix_audio envAudio frameABC [2, 0] 0 =
      .ok { data := List.replicate 3 (List.replicate 2 (0 : Int))
            channel_layout := 3, sample_rate := 48000, format := 8
            nb_samples := 2, pts := 1234 } :=
  C3_remix envAudio frameABC [1, 2] [3, 4] [5, 6] rfl rfl rfl rfl rfl rfl

/-- C4: evidence against release-once.  At the script `sc4` — one packet
(id 0) belonging to the tracked stream, send accepted, decoder
immediately answering EAGAIN — the EAGAIN path `continue`s the read
loop without reaching `av_packet_unref`, so the run's complete ledger
contains the packet's read but not a single release of it before the
next (failing) read or the return. -/
theorem C4_packet_not_released :
    (apply_audio_remix sc4).2 =
      [.read 0, .send 0 0, .recv true AVERROR_EAGAIN,
       .read_fail AVERROR_EOF, .frame_free] ∧
    (apply_audio_remix sc4).2.countP isUnref = 0 ∧
    RemixEvent.read 0 ∈ (apply_audio_remix sc4).2 :=
  ⟨rfl, rfl, by decide⟩

theorem receiveLoop_recv_handle (sc : RemixScript) (frame : Option Unit)
    (pid : Nat) :
    ∀ script k b r,
      RemixEvent.recv b r ∈ (receiveLoop sc frame pid script k).2 →
      b = frame.isNone := by
  intro script
  induction script with
  | nil =>
    intro k b r h
    simp [receiveLoop] at h
  | cons x rest ih =>
    intro k b r h
    simp only [receiveLoop] at h
    by_cases hx : x < 0
    · rw [if_pos hx] at h
      simp at h
      exact h.1
    · rw [if_neg hx] at h
      by_cases hr : sc.remix_res pid k < 0
      · rw [if_pos hr] at h
        simp at h
        exact h.1
      · rw [if_neg hr] at h
        simp at h
        rcases h with ⟨hb, _⟩ | hmem
        · exact hb
        · exact ih (k + 1) b r hmem

theorem readLoop_recv_handle (sc : RemixScript) (frame : Option Unit) :
    ∀ pkts b r,
      RemixEvent.recv b r ∈ (readLoop sc frame pkts).2 → b = frame.isNone := by
  intro pkts
  induction pkts with
  | nil =>
    intro b r h
    simp [readLoop] at h
  | cons pkt rest ih =>
    intro b r h
    simp only [readLoop] at h
    by_cases hs : (pkt.stream_index == sc.stream_index) = true
    · rw [if_pos hs] at h
      by_cases hsend : sc.send_res pkt.pid < 0
      · rw [if_pos hsend] at h
        simp at h
      · rw [if_neg hsend] at h
        by_cases he : ((receiveLoop sc frame pkt.pid (sc.recv_script pkt.pid)
              0).1 == AVERROR_EAGAIN ||
            (receiveLoop sc frame pkt.pid (sc.recv_script pkt.pid) 0).1 ==
              AVERROR_EOF) = true
        · rw [if_pos he] at h
          simp only [List.mem_cons, List.mem_append] at h
          rcases h with hfalse | hfalse | hmem | hmem
          · cases hfalse
          · cases hfalse
          · exact receiveLoop_recv_handle sc frame pkt.pid
              (sc.recv_script pkt.pid) 0 b r hmem
          · exact ih b r hmem
        · rw [if_neg he] at h
          by_cases hlt : (receiveLoop sc frame pkt.pid (sc.recv_script pkt.pid)
              0).1 < 0
          · rw [if_pos hlt] at h
            simp only [List.mem_cons] at h
            rcases h with hfalse | hfalse | hmem
            · cases hfalse
            · cases hfalse
            · exact receiveLoop_recv_handle sc frame pkt.pid
                (sc.recv_script pkt.pid) 0 b r hmem
          · rw [if_neg hlt] at h
            simp only [List.mem_cons, List.mem_append] at h
            rcases h with hfalse | hfalse | hmem | hfalse | hmem
            · cases hfalse
            · cases hfalse
            · exact receiveLoop_recv_handle sc frame pkt.pid
                (sc.recv_script pkt.pid) 0 b r hmem
            · cases hfalse
            · exact ih b r hmem
    · rw [if_neg hs] at h
      simp only [List.mem_cons] at h
      rcases h with hfalse | hfalse | hmem
      · cases hfalse
      · cases hfalse
      · exact ih b r hmem

/-- C10: in `apply_audio_remix` the frame handle is NULL at every receive
call of every run — it is initialized to NULL before the read loop and
never allocated or re-initialized between receive iterations, so every
receive operates on the same never-reset handle. -/
theorem C10_frame_handle_null (sc : RemixScript) (b : Bool) (r : Int)
    (h : RemixEvent.recv b r ∈ (apply_audio_remix sc).2) : b = true := by
  simp only [apply_audio_remix, List.mem_append] at h
  rcases h with hmem | hfalse
  · exact readLoop_recv_handle sc none sc.packets b r hmem
  · simp at hfalse

/-- Witness for C10 at the script `sc10`, whose run contains the receive
event `recv true 0`: the handle recorded there is NULL. -/
theorem C10_frame_handle_null_witness :
    RemixEvent.recv true 0 ∈ (apply_audio_remix sc10).2 ∧ true = true :=
  ⟨by decide, C10_frame_handle_null sc10 true 0 (by decide)⟩

end FfmpegHw
